import Mathlib

/-!
Verification of the frugal-mlops repository's Lambda handlers.

This file gives a shallow embedding, in Lean 4, of the pure decision logic of
the repository's AWS Lambda handlers, and proves (or refutes) the frozen
claims about them.  Python dictionaries are modelled as ordered association
lists (`List (String × JVal)`), Python scalars as a `JVal` sum type, AWS API
calls as explicit environment records passed to the handler functions, and
raised exceptions as `Except` errors.  Numeric variant weights are modelled
as rationals (`ℚ`): the two literals involved (0.9 and 1.0) and their
difference are exact in IEEE double precision (Sterbenz), so the rational
model agrees with the Python floats on every value appearing here.
-/

namespace FrugalMLOps

/-- A Python/JSON-like value: scalars, lists and (ordered) dicts. -/
inductive JVal where
  | s (v : String)
  | i (v : Int)
  | b (v : Bool)
  | null
  | list (items : List JVal)
  | dict (entries : List (String × JVal))

/-- `d.get(k)` on an ordered dict (first matching key). -/
def dictGet? (d : List (String × JVal)) (k : String) : Option JVal :=
  (d.find? (fun kv => kv.1 = k)).map (fun kv => kv.2)

/-- `d[k] = v` on an ordered dict: overwrite in place if the key exists
(Python dicts keep the original insertion position), else append. -/
def dictSet (d : List (String × JVal)) (k : String) (v : JVal) :
    List (String × JVal) :=
  if d.any (fun kv => kv.1 = k) then
    d.map (fun kv => if kv.1 = k then (k, v) else kv)
  else d ++ [(k, v)]

/-- `isinstance(val, list)`. -/
def isListVal : JVal → Bool
  | JVal.list _ => true
  | _ => false

mutual

/-- The value stored by `flatten_nested_dict` for one entry: the source does
`result[key] = flatten_nested_dict(val, parent_key=key) if isinstance(val, dict) else val`,
i.e. a nested dict is replaced by its (recursively processed) dict, stored as
a value under `key` — not merged into the enclosing result. -/
def flattenEntryVal (key : String) : JVal → JVal
  | JVal.dict sub => JVal.dict (flatten_nested_dict sub key)
  | v => v

/-- `flatten_nested_dict(obj, parent_key)` from
`deployment/setupfns/describeuser/main.py`.  Iterates the dict entries in
order; when `parent_key` is truthy (non-empty) a list value is skipped;
otherwise the derived key is `parent_key + "." + rawkey` (or `rawkey` at top
level).  Within one call the derived keys are distinct (dict keys are), so
the successive `result[key] = ...` assignments are modelled by consing. -/
def flatten_nested_dict : List (String × JVal) → String → List (String × JVal)
  | [], _ => []
  | (rawkey, v) :: rest, parent_key =>
    if parent_key ≠ "" ∧ isListVal v then
      flatten_nested_dict rest parent_key
    else
      let key := if parent_key = "" then rawkey else parent_key ++ "." ++ rawkey
      (key, flattenEntryVal key v) :: flatten_nested_dict rest parent_key

end

/-- `PASSTHRU_PROPS` from `deployment/setupfns/describeuser/main.py`. -/
def PASSTHRU_PROPS : List String :=
  ["DomainId", "UserProfileArn", "UserProfileName", "HomeEfsFileSystemUid",
   "Status", "SingleSignOnUserIdentifier", "SingleSignOnUserValue",
   "AppNetworkAccessType"]

/-- `s.rpartition("/")[2]`: the suffix after the last slash (the whole string
when no slash occurs). -/
def afterLastSlash (s : String) : String :=
  String.mk ((s.toList.reverse.takeWhile (fun c => c ≠ '/')).reverse)

/-- `user_description_to_cfn_result(desc)` from
`deployment/setupfns/describeuser/main.py`.  `none` models a raised
exception (missing or non-dict `UserSettings`, or a truthy non-string
`ExecutionRole`, on which the source would raise). -/
def user_description_to_cfn_result (desc : List (String × JVal)) :
    Option (List (String × JVal)) :=
  match dictGet? desc "UserSettings" with
  | some (JVal.dict us) =>
    let result := desc.filter (fun kv => PASSTHRU_PROPS.contains kv.1)
    let user_settings_flat := flatten_nested_dict us ""
    let result := user_settings_flat.foldl (fun r kv => dictSet r kv.1 kv.2) result
    match dictGet? user_settings_flat "ExecutionRole" with
    | some (JVal.s role) =>
      if role ≠ "" then
        some (dictSet result "ExecutionRoleName" (JVal.s (afterLastSlash role)))
      else some result
    | none => some result
    | some JVal.null => some result
    | some (JVal.b false) => some result
    | some _ => none
  | _ => none

/-! ## describe_stable_user (deployment/setupfns/describeuser/main.py)

The polling loop is embedded with explicit discrete time: the `i`-th check of
the `while` guard happens at elapsed time `i * poll_secs` (the `describe`
call is treated as instantaneous; each loop iteration ends with
`time.sleep(poll_secs)`).  The stream of `DescribeUserProfile` responses is
an oracle `polls : ℕ → UserProfileDesc`.  The Lean function is total, which
is itself the model-level statement that the loop cannot run unboundedly. -/

/-- A `DescribeUserProfile` response: its `Status` string plus the rest of
the payload. -/
structure UserProfileDesc where
  Status : String
  payload : List (String × JVal)

/-- `updating_statuses` from `describe_stable_user`. -/
def updating_statuses : List String := ["Deleting", "Pending", "Updating"]

/-- The `RuntimeError` message raised on timeout (elapsed time is a float in
the source; here it is the discrete elapsed seconds). -/
def stable_timeout_msg (elapsed : ℕ) (last_status : String) : String :=
  "Timed out after " ++ toString elapsed ++
    " seconds before user stabilized! Last status: " ++ last_status

/-- The `while` loop of `describe_stable_user`, starting from iteration `i`
with current `last_status`.  Mirrors: guard `elapsed < max_wait_secs`, then
describe, update `last_status`, return when the status is stable, sleep and
repeat; on guard failure raise the timeout `RuntimeError`. -/
def describe_stable_user_go (polls : ℕ → UserProfileDesc)
    (poll_secs max_wait : ℕ) (hp : 0 < poll_secs) (i : ℕ) (last_status : String) :
    Except String UserProfileDesc :=
  if h : i * poll_secs < max_wait then
    let desc := polls i
    if desc.Status ∈ updating_statuses then
      describe_stable_user_go polls poll_secs max_wait hp (i + 1) desc.Status
    else Except.ok desc
  else
    Except.error (stable_timeout_msg (i * poll_secs) last_status)
termination_by max_wait - i * poll_secs
decreasing_by
  rw [Nat.succ_mul]
  omega

/-- `describe_stable_user(domain_id, user_profile_name, poll_secs, max_wait_secs)`
(defaults `poll_secs=30`, `max_wait_secs=60*20`): `last_status` starts as
`"Pending"`, the loop starts at elapsed time 0. -/
def describe_stable_user (polls : ℕ → UserProfileDesc)
    (poll_secs max_wait : ℕ) (hp : 0 < poll_secs) : Except String UserProfileDesc :=
  describe_stable_user_go polls poll_secs max_wait hp 0 "Pending"

/-- The number of `DescribeUserProfile` calls the loop makes when no stable
status ever appears: the least `i` with `¬ (i * poll_secs < max_wait)`,
i.e. `⌈max_wait / poll_secs⌉`. -/
def numPolls (poll_secs max_wait : ℕ) : ℕ := (max_wait + poll_secs - 1) / poll_secs

/-- The value `last_status` holds after `n` polls: `"Pending"` (its
initialisation) when no poll happened, else the status of the last poll. -/
def last_observed_status (polls : ℕ → UserProfileDesc) : ℕ → String
  | 0 => "Pending"
  | Nat.succ m => (polls m).Status

/-! ## is-endpoint-updated (functions/is-endpoint-updated/main.py) -/

/-- `DEFAULT_BUSY_STATES`. -/
def DEFAULT_BUSY_STATES : List String :=
  ["Creating", "Updating", "SystemUpdating", "RollingBack", "Deleting"]

/-- `DEFAULT_FAIL_STATES`. -/
def DEFAULT_FAIL_STATES : List String := ["Failed"]

/-- The two typed exceptions of the module: `EndpointUpdating` (busy, to be
retried by Step Functions) and `UpdateFailed` (terminal). -/
inductive EpUpdateError where
  | endpointUpdating (msg : String)
  | updateFailed (msg : String)

/-- The handler event: `EndpointName` plus the three optional state-set
overrides (`event.get(...)`). -/
structure EndpointStatusEvent where
  EndpointName : String
  TargetStates : Option (List String)
  FailStates : Option (List String)
  BusyStates : Option (List String)

/-- A `DescribeEndpoint` response: its `EndpointStatus` plus the rest of the
payload.  The source's `json.loads(json.dumps(..))` round-trip is the
identity on this model (datetimes are already plain values here). -/
structure EndpointDescription where
  EndpointStatus : String
  payload : List (String × JVal)

/-- The f-string `"Endpoint ... is in status ..."` used by both exceptions. -/
def epStatusMsg (endpoint_name endpoint_status : String) : String :=
  "Endpoint " ++ endpoint_name ++ " is in status " ++ endpoint_status

/-- `handler(event, context)` from `functions/is-endpoint-updated/main.py`,
with the `DescribeEndpoint` response supplied as an argument. -/
def is_endpoint_updated_handler (event : EndpointStatusEvent)
    (endpoint_desc : EndpointDescription) : Except EpUpdateError EndpointDescription :=
  let target_states := event.TargetStates
  let fail_states := event.FailStates.getD DEFAULT_FAIL_STATES
  let busy_states := event.BusyStates.getD DEFAULT_BUSY_STATES
  let endpoint_status := endpoint_desc.EndpointStatus
  if endpoint_status ∈ busy_states then
    Except.error (EpUpdateError.endpointUpdating
      (epStatusMsg event.EndpointName endpoint_status))
  else if (match target_states with
           | some ts => decide (endpoint_status ∉ ts)
           | none => false) then
    Except.error (EpUpdateError.updateFailed
      (epStatusMsg event.EndpointName endpoint_status))
  else if endpoint_status ∈ fail_states then
    Except.error (EpUpdateError.updateFailed
      (epStatusMsg event.EndpointName endpoint_status))
  else
    Except.ok endpoint_desc

/-! ## prepare-deployment-configs (functions/prepare-deployment-configs/main.py)

The handler is embedded as a pure function of the event plus an environment
record holding the SageMaker responses.  `util.append_timestamp` appends a
`-YYYY-MM-DD-HH-MM-SS` suffix derived from the wall clock; the two suffixes
(one per `append_timestamp` call) are environment inputs.  The
`CreateEndpointConfig` calls actually issued are returned as an effect log,
also on paths that subsequently raise. -/

/-- A `ProductionVariant` as sent to `CreateEndpointConfig` (and as returned
inside `DescribeEndpointConfig`); `extra` carries any further fields of an
existing variant, copied verbatim by the `json.loads(json.dumps(..))` deep
copy. -/
structure ProductionVariant where
  VariantName : String
  ModelName : String
  InstanceType : String
  InitialInstanceCount : ℕ
  InitialVariantWeight : ℚ
  extra : List (String × JVal)

/-- A `ProductionVariantSummary` from `DescribeEndpoint`. -/
structure VariantSummary where
  VariantName : String
  CurrentInstanceCount : ℕ
  extraSummary : List (String × JVal)

/-- The parts of a `DescribeEndpoint` response the handler reads. -/
structure SMEndpointDesc where
  EndpointStatus : String
  EndpointConfigName : String
  ProductionVariants : List VariantSummary

/-- The part of a `DescribeEndpointConfig` response the handler reads. -/
structure SMEndpointConfigDesc where
  ProductionVariants : List ProductionVariant

/-- Python exceptions escaping the handler.  `unboundLocalError name` models
Python's `UnboundLocalError` for reading local variable `name` before
assignment; `indexError` models `list[0]` on an empty list; `clientError`
models a re-raised `botocore.exceptions.ClientError`. -/
inductive PyErr where
  | runtimeError (msg : String)
  | clientError (msg : String)
  | unboundLocalError (name : String)
  | indexError

/-- The handler event: `EndpointName` and
`event["ModelRegistration"]["Payload"]["ModelName"]`. -/
structure PrepareEvent where
  EndpointName : String
  TargetModelName : String

/-- Environment of AWS responses for one invocation.  `describe_endpoint`
errors carry the `ClientError` message, against which the source tests
`.lower().startswith("could not find endpoint")`. -/
structure PrepareEnv where
  describe_endpoint : Except String SMEndpointDesc
  describe_endpoint_config : String → SMEndpointConfigDesc
  endpoint_config_arn : String → String
  ts_target : String
  ts_canary : String

/-- One `CreateEndpointConfig` call made by the handler (name and variant
list; the constant `DataCaptureConfig` and tags carry no claim-relevant
data). -/
structure CreatedEndpointConfig where
  EndpointConfigName : String
  ProductionVariants : List ProductionVariant

/-- The value returned by the handler on normal completion. -/
structure PrepareResult where
  Status : String
  TargetEndpointConfig : Option (String × String)
  CanaryEndpointConfig : Option (String × String)

/-- Handler outcome: the `CreateEndpointConfig` effect log plus either the
returned result or the raised exception. -/
structure PrepOutcome where
  created : List CreatedEndpointConfig
  result : Except PyErr PrepareResult

/-- The `RuntimeError` message for the `StopIteration` translation (source
lines 120–124; note the source interpolates `existing_variant_name` where an
endpoint name was presumably intended, and the `"".join` leaves no space
before `DescribeEndpoint`). -/
def variantMissingMsg (variant_name existing_variant_name : String) : String :=
  "Variant \x27" ++ variant_name ++ "\x27 in endpoint \x27" ++
    existing_variant_name ++ "\x27" ++
    "DescribeEndpoint response was not present in follow-up DescribeEndpointConfiguration " ++
    "result."

/-- Source lines 63–150: the config-creation phase, entered with the already
resolved `endpoint_desc` and `result["Status"]`.  The target config is
created first, from `target_variant_config` with `VariantName = "blue"`;
only afterwards (line 106) is the local `target_variant_config` renamed to
`"green"` when the existing variant is already called `"blue"`, so the
rename affects the canary copy but not the already-created target config. -/
def prepareCreateConfigs (event : PrepareEvent) (env : PrepareEnv)
    (endpoint_desc : Option SMEndpointDesc) (status : String) : PrepOutcome :=
  let target_variant_config : ProductionVariant :=
    { VariantName := "blue", ModelName := event.TargetModelName,
      InstanceType := "ml.g4dn.xlarge", InitialInstanceCount := 1,
      InitialVariantWeight := 1, extra := [] }
  let target_endpoint_config_name := event.EndpointName ++ "-target" ++ env.ts_target
  let created_target : CreatedEndpointConfig :=
    ⟨target_endpoint_config_name, [target_variant_config]⟩
  let target_result := (env.endpoint_config_arn target_endpoint_config_name,
                        target_endpoint_config_name)
  match endpoint_desc with
  | none =>
    ⟨[created_target],
     Except.ok { Status := status, TargetEndpointConfig := some target_result,
                 CanaryEndpointConfig := none }⟩
  | some d =>
    match d.ProductionVariants with
    | [] => ⟨[created_target], Except.error PyErr.indexError⟩
    | existing_variant_summary :: _ =>
      let existing_variant_name := existing_variant_summary.VariantName
      let target_variant_config :=
        if existing_variant_name = "blue" then
          { target_variant_config with VariantName := "green" }
        else target_variant_config
      let existing_endpoint_config := env.describe_endpoint_config d.EndpointConfigName
      match existing_endpoint_config.ProductionVariants.find?
          (fun conf => conf.VariantName = existing_variant_summary.VariantName) with
      | none =>
        ⟨[created_target],
         Except.error (PyErr.runtimeError
           (variantMissingMsg existing_variant_summary.VariantName existing_variant_name))⟩
      | some existing_variant_config =>
        let existing_variant_interim :=
          { existing_variant_config with
            InitialInstanceCount := existing_variant_summary.CurrentInstanceCount,
            InitialVariantWeight := (9 : ℚ) / 10 }
        let new_variant_interim :=
          { target_variant_config with
            InitialVariantWeight := 1 - existing_variant_interim.InitialVariantWeight }
        let interim_endpoint_config_name := event.EndpointName ++ "-canary" ++ env.ts_canary
        ⟨[created_target,
          ⟨interim_endpoint_config_name, [existing_variant_interim, new_variant_interim]⟩],
         Except.ok { Status := status, TargetEndpointConfig := some target_result,
                     CanaryEndpointConfig :=
                       some (env.endpoint_config_arn interim_endpoint_config_name,
                             interim_endpoint_config_name) }⟩

/-- `handler(event, context)` from
`functions/prepare-deployment-configs/main.py`.  On an existing endpoint in
status `Creating`/`Deleting`, the source's `RuntimeError` f-string (line 55)
reads the local `existing_variant_name`, which is only assigned at line 105,
so Python raises `UnboundLocalError` there instead. -/
def prepare_deployment_configs (event : PrepareEvent) (env : PrepareEnv) : PrepOutcome :=
  match env.describe_endpoint with
  | Except.error msg =>
    if msg.toLower.startsWith "could not find endpoint" then
      prepareCreateConfigs event env none "New"
    else ⟨[], Except.error (PyErr.clientError msg)⟩
  | Except.ok endpoint_desc =>
    if endpoint_desc.EndpointStatus = "Creating" ∨
        endpoint_desc.EndpointStatus = "Deleting" then
      ⟨[], Except.error (PyErr.unboundLocalError "existing_variant_name")⟩
    else if endpoint_desc.ProductionVariants.length > 1 then
      ⟨[], Except.ok { Status := "Testing", TargetEndpointConfig := none,
                       CanaryEndpointConfig := none }⟩
    else
      prepareCreateConfigs event env (some endpoint_desc) "Ready"

/-! ## The top-level CFN custom-resource handler pattern
(deployment/setupfns/user/main.py, describedomain/main.py, usersetup/main.py
all repeat it verbatim). -/

/-- Python exceptions crossing the embedded handlers. -/
inductive PyExc where
  | keyError (key : String)
  | valueError (msg : String)
  | runtimeError (msg : String)
  | otherExc (msg : String)

/-- `str(e)`: for `KeyError` Python renders the repr of the key
(surrounded by single quotes); for the other modelled exceptions it is the
message. -/
def pyExcMessage : PyExc → String
  | PyExc.keyError k => "\x27" ++ k ++ "\x27"
  | PyExc.valueError m => m
  | PyExc.runtimeError m => m
  | PyExc.otherExc m => m

/-- One `cfnresponse.send(...)` call: response status, data dict, the
`physicalResourceId` argument (none = the module default) and the `error`
argument. -/
structure CfnResponse where
  status : String
  data : List (String × JVal)
  physicalResourceId : Option String
  error : Option String

/-- A SUCCESS response with empty data, as sent by the delete paths. -/
def cfnSuccessEmpty (physical_id : String) : CfnResponse :=
  ⟨"SUCCESS", [], some physical_id, none⟩

/-- A FAILED response with empty data and an error message, as sent by the
top-level exception handler. -/
def cfnFailed (msg : String) : CfnResponse :=
  ⟨"FAILED", [], none, some msg⟩

/-- Outcome of a Lambda invocation: the `cfnresponse.send` calls made, in
order, and the exception the function re-raised (if any). -/
structure LambdaOutcome where
  sent : List CfnResponse
  raised : Option PyExc

/-- `lambda_handler(event, context)` pattern shared by
`deployment/setupfns/user/main.py` (lines 17–44),
`describedomain/main.py` (45–75) and `usersetup/main.py` (33–63).
`request_type?` is `event["RequestType"]` (`none` models a missing key,
which raises `KeyError` inside the `try`); `inner rt` is the behaviour of
the dispatched `handle_*` function: the responses it sends plus the
exception it raises, if any. -/
def cfn_lambda_handler (inner : String → List CfnResponse × Option PyExc)
    (request_type? : Option String) : LambdaOutcome :=
  match request_type? with
  | none =>
    let e := PyExc.keyError "RequestType"
    ⟨[cfnFailed (pyExcMessage e)], some e⟩
  | some rt =>
    if rt = "Create" ∨ rt = "Update" ∨ rt = "Delete" then
      match inner rt with
      | (sends, none) => ⟨sends, none⟩
      | (sends, some e) => ⟨sends ++ [cfnFailed (pyExcMessage e)], some e⟩
    else
      ⟨[cfnFailed ("Unsupported CFN RequestType \x27" ++ rt ++ "\x27")], none⟩

/-- The dispatch raised exception `e`: either `event["RequestType"]` was
missing (KeyError), or the dispatched inner handler raised `e`. -/
def processingRaises (inner : String → List CfnResponse × Option PyExc)
    (request_type? : Option String) (e : PyExc) : Prop :=
  (request_type? = none ∧ e = PyExc.keyError "RequestType") ∨
  (∃ rt, request_type? = some rt ∧
    (rt = "Create" ∨ rt = "Update" ∨ rt = "Delete") ∧ (inner rt).2 = some e)

/-! ## handle_delete (deployment/setupfns/user/main.py, lines 68–116) -/

/-- The parts of the Delete event the handler reads:
`event["PhysicalResourceId"]` and
`event["ResourceProperties"].get("DomainId")`. -/
structure UserDeleteEvent where
  PhysicalResourceId : String
  DomainIdProp : Option String

/-- Outcome of `smclient.describe_user_profile`. -/
inductive DescribeUPResult where
  | found (desc : List (String × JVal))
  | resourceNotFound
  | raisedOther (e : PyExc)

/-- AWS responses for one Delete invocation.  `delete_user_profile` bundles
the delete call plus its polling loop (source lines 199–223): `none` means
it completed, `some e` that it raised. -/
structure UserDeleteEnv where
  list_domains : Except PyExc (List String)
  describe_user_profile : String → String → DescribeUPResult
  delete_user_profile : String → String → Option PyExc

/-- Outcome of `handle_delete`: responses sent, whether
`delete_user_profile` was invoked, and the exception raised (if any). -/
structure DeleteOutcome where
  sent : List CfnResponse
  deleteCalled : Bool
  raised : Option PyExc

/-- Source lines 98–116: describe the profile (treating `ResourceNotFound`
as already-deleted success), otherwise delete it and report success. -/
def userDeleteWithDomain (event : UserDeleteEvent) (env : UserDeleteEnv)
    (domain_id : String) : DeleteOutcome :=
  match env.describe_user_profile domain_id event.PhysicalResourceId with
  | DescribeUPResult.resourceNotFound =>
    ⟨[cfnSuccessEmpty event.PhysicalResourceId], false, none⟩
  | DescribeUPResult.raisedOther e => ⟨[], false, some e⟩
  | DescribeUPResult.found _ =>
    match env.delete_user_profile domain_id event.PhysicalResourceId with
    | some e => ⟨[], true, some e⟩
    | none => ⟨[cfnSuccessEmpty event.PhysicalResourceId], true, none⟩

/-- `handle_delete(event, context)` from `deployment/setupfns/user/main.py`.
When no `DomainId` property is given the handler lists domains: a failing
call raises `ValueError`, an empty region reports success immediately, else
the first domain id is used. -/
def user_handle_delete (event : UserDeleteEvent) (env : UserDeleteEnv) : DeleteOutcome :=
  match event.DomainIdProp with
  | some domain_id => userDeleteWithDomain event env domain_id
  | none =>
    match env.list_domains with
    | Except.error _ =>
      ⟨[], false, some (PyExc.valueError
        "DomainId not explicitly provided and could not query sagemaker:ListDomains")⟩
    | Except.ok [] => ⟨[cfnSuccessEmpty event.PhysicalResourceId], false, none⟩
    | Except.ok (domain_id :: _) => userDeleteWithDomain event env domain_id

/-- The domain id `handle_delete` resolves (when it resolves one). -/
def resolvedDomainId (event : UserDeleteEvent) (env : UserDeleteEnv) : Option String :=
  match event.DomainIdProp with
  | some d => some d
  | none =>
    match env.list_domains with
    | Except.ok (d :: _) => some d
    | _ => none

/-! ## create_user_setup (deployment/setupfns/usersetup/main.py, lines
109–137, with content.clone_git_repository from content.py) -/

/-- The `ResourceProperties` of the user-setup resource. -/
structure UserSetupConfig where
  DomainId : String
  UserProfileName : String
  GitRepository : Option String
  HomeEfsFileSystemUid : Option String
  EnableProjects : Bool

/-- Environment for one create invocation: the outcome of
`content.clone_git_repository(efs_uid, git_repo)` (filesystem + git side
effects; `some e` = it raised `e`), and of the enable-projects phase
(`describe_user_profile` plus `smprojects.enable_sm_projects_for_role`,
both AWS calls; `some e` = the phase raised `e`). -/
structure UserSetupEnv where
  clone_git_repository : String → String → Option PyExc
  enable_projects_step : String → String → Option PyExc

/-- Lines 129–137 of `create_user_setup`: the optional enable-projects
phase, then the return value. -/
def usersetupEnableProjects (cfg : UserSetupConfig) (env : UserSetupEnv) :
    Except PyExc String :=
  if cfg.EnableProjects then
    match env.enable_projects_step cfg.DomainId cfg.UserProfileName with
    | some e => Except.error e
    | none => Except.ok cfg.UserProfileName
  else Except.ok cfg.UserProfileName

/-- `create_user_setup(config)`.  The truthiness tests mirror Python:
a missing or empty-string `GitRepository` skips cloning; a truthy
`GitRepository` with a falsy `HomeEfsFileSystemUid` raises `ValueError`;
the clone call sits in `try/except Exception`, both of whose branches fall
through (the except branch prints and ignores the error). -/
def create_user_setup (cfg : UserSetupConfig) (env : UserSetupEnv) :
    Except PyExc String :=
  let git_repo := cfg.GitRepository.getD ""
  let efs_uid := cfg.HomeEfsFileSystemUid.getD ""
  if git_repo ≠ "" then
    if efs_uid = "" then
      Except.error (PyExc.valueError
        "HomeEfsFileSystemUid parameter is mandatory when GitRepository is specified")
    else
      match env.clone_git_repository efs_uid git_repo with
      | none => usersetupEnableProjects cfg env
      | some _ => usersetupEnableProjects cfg env
  else usersetupEnableProjects cfg env

/-- `handle_create(event, context)` from
`deployment/setupfns/usersetup/main.py` (lines 66–76): run
`create_user_setup` and report SUCCESS with the profile name as data and
physical id. -/
def usersetup_handle_create (cfg : UserSetupConfig) (env : UserSetupEnv) :
    List CfnResponse × Option PyExc :=
  match create_user_setup cfg env with
  | Except.error e => ([], some e)
  | Except.ok name =>
    ([⟨"SUCCESS", [("UserProfileName", JVal.s name)], some name, none⟩], none)

/-! ## request-approval (functions/request-approval/main.py) -/

/-- The UTF-8 bytes of a character (as naturals below 256). -/
def utf8Bytes (c : Char) : List ℕ :=
  let n := c.toNat
  if n < 0x80 then [n]
  else if n < 0x800 then [0xC0 + n / 0x40, 0x80 + n % 0x40]
  else if n < 0x10000 then
    [0xE0 + n / 0x1000, 0x80 + (n / 0x40) % 0x40, 0x80 + n % 0x40]
  else
    [0xF0 + n / 0x40000, 0x80 + (n / 0x1000) % 0x40,
     0x80 + (n / 0x40) % 0x40, 0x80 + n % 0x40]

/-- Upper-case hex digit for a value below 16. -/
def hexDigit (n : ℕ) : Char :=
  if n < 10 then Char.ofNat (48 + n) else Char.ofNat (55 + n)

/-- `%XX` percent-escape of one byte. -/
def percentByte (b : ℕ) : String :=
  String.mk ['%', hexDigit (b / 16), hexDigit (b % 16)]

/-- A character `urllib.parse.quote` leaves unescaped with the default
`safe="/"`: ASCII alphanumerics, `_.-~` and `/`. -/
def quoteSafe (c : Char) : Bool :=
  c.isAlphanum || c = '_' || c = '.' || c = '-' || c = '~' || c = '/'

/-- `urllib.parse.quote(s)` with default arguments: UTF-8 encode, then
percent-escape every byte of every non-safe character. -/
def uriQuote (s : String) : String :=
  s.data.foldl
    (fun acc c =>
      if quoteSafe c then acc.push c
      else acc ++ String.join ((utf8Bytes c).map percentByte)) ""

/-- Source lines 60–75: extend a base URI with the encoded task token,
`"".join([base, "&" if "?" in base else "?", "taskToken=", encoded])`. -/
def extend_uri_with_token (base token_encoded : String) : String :=
  String.join [base, if base.contains '?' then "&" else "?", "taskToken=",
    token_encoded]

/-- The pair of links the `request-approval` handler computes from the input
`ApprovalUri`, `RejectionUri` and the Step Functions task token. -/
def request_approval_links (approval_uri rejection_uri task_token : String) :
    String × String :=
  let task_token_uriencoded := uriQuote task_token
  (extend_uri_with_token approval_uri task_token_uriencoded,
   extend_uri_with_token rejection_uri task_token_uriencoded)

/-- The SNS fallback message body (source lines 125–134), which embeds both
links. -/
def request_approval_sns_message (approval_uri rejection_uri
    timeout_description details_url : String) : String :=
  String.join
    ["Hello,\n\n",
     "A new model has been tested and is ready for deployment.\n\n",
     "Please *approve* to trigger phased deployment, or *reject* the change within ",
     timeout_description ++ ", or the model will be auto-rejected.\n\n\n",
     "Approve -> " ++ approval_uri ++ "\n\n",
     "Reject -> " ++ rejection_uri ++ "\n\n\n\n",
     "To view the current status of this workflow in the AWS Console, visit: " ++
       details_url ++ "\n\n"]

/-! ## Concrete inputs for the divergence theorems -/

/-- A representative `DescribeUserProfile` response: a nested
`SharingSettings.S3OutputPath` inside `UserSettings`. -/
def c2UserDesc : List (String × JVal) :=
  [("DomainId", JVal.s "d-123"),
   ("UserProfileArn", JVal.s "arn:aws:sagemaker:us-east-1:111122223333:user-profile/d-123/alice"),
   ("UserSettings", JVal.dict
     [("ExecutionRole", JVal.s "arn:aws:iam::111122223333:role/service-role/MyRole"),
      ("SharingSettings", JVal.dict [("S3OutputPath", JVal.s "s3://bucket/out")])])]

/-- Event for a deployment to endpoint `my-endpoint` of the newly registered
model `model-2`. -/
def cPrepEvent : PrepareEvent := ⟨"my-endpoint", "model-2"⟩

/-- Environment where the endpoint exists but is in status `Creating`. -/
def c4Env : PrepareEnv :=
  { describe_endpoint := Except.ok ⟨"Creating", "my-endpoint-cfg", [⟨"blue", 1, []⟩]⟩,
    describe_endpoint_config := fun _ => ⟨[]⟩,
    endpoint_config_arn := fun n =>
      "arn:aws:sagemaker:us-east-1:111122223333:endpoint-config/" ++ n,
    ts_target := "-2026-10-12-00-00-00",
    ts_canary := "-2026-10-12-00-00-01" }

/-- Environment where the endpoint is `InService` with a single variant
named `blue` (the steady state after a first deployment), running
`model-1` on 2 instances. -/
def c9Env : PrepareEnv :=
  { describe_endpoint := Except.ok ⟨"InService", "my-endpoint-cfg", [⟨"blue", 2, []⟩]⟩,
    describe_endpoint_config := fun _ =>
      ⟨[⟨"blue", "model-1", "ml.g4dn.xlarge", 2, 1, []⟩]⟩,
    endpoint_config_arn := fun n =>
      "arn:aws:sagemaker:us-east-1:111122223333:endpoint-config/" ++ n,
    ts_target := "-2026-10-12-00-00-00",
    ts_canary := "-2026-10-12-00-00-01" }

/-! ## Theorems -/

/-- Claim C2: the claim (and the source docstring) say the nested contents of
`UserSettings` are flattened to top-level dot-notation output keys, e.g.
`SharingSettings.S3OutputPath` bound to the scalar leaf.  The code instead
stores the recursively processed sub-dict as a nested value under the
original top-level key: on `c2UserDesc` the output has no top-level
`SharingSettings.S3OutputPath` key; it has `SharingSettings` bound to a
nested dict whose single key is the dotted name. -/
theorem user_description_not_dot_flattened :
    user_description_to_cfn_result c2UserDesc = some
      [("DomainId", JVal.s "d-123"),
       ("UserProfileArn", JVal.s "arn:aws:sagemaker:us-east-1:111122223333:user-profile/d-123/alice"),
       ("ExecutionRole", JVal.s "arn:aws:iam::111122223333:role/service-role/MyRole"),
       ("SharingSettings", JVal.dict
         [("SharingSettings.S3OutputPath", JVal.s "s3://bucket/out")]),
       ("ExecutionRoleName", JVal.s "MyRole")] ∧
    dictGet? ((user_description_to_cfn_result c2UserDesc).getD [])
        "SharingSettings.S3OutputPath" = none ∧
    dictGet? ((user_description_to_cfn_result c2UserDesc).getD [])
        "SharingSettings" = some (JVal.dict
          [("SharingSettings.S3OutputPath", JVal.s "s3://bucket/out")]) := by
  refine ⟨?_, ?_, ?_⟩ <;> rfl

/-- Claim C4: on an existing endpoint in status `Creating` the claim expects
a `RuntimeError` reporting the status; the source instead trips over the
unassigned local `existing_variant_name` in the error f-string and raises
`UnboundLocalError` (and indeed creates no endpoint configuration). -/
theorem prepare_busy_status_raises_unbound_local :
    prepare_deployment_configs cPrepEvent c4Env =
      ⟨[], Except.error (PyErr.unboundLocalError "existing_variant_name")⟩ := by
  rfl

/-- Claim C9: with the existing variant named `blue`, the target endpoint
config is created (source line 87) with the new model as variant `blue`
before line 107 renames the local dict to `green`, so the canary config
carries the new model (`model-2`) as `green` while the target config
carries it as `blue` — the names differ, contradicting the claim. -/
theorem prepare_target_canary_variant_name_mismatch :
    (prepare_deployment_configs cPrepEvent c9Env).created.map
        (fun c => c.ProductionVariants.map (fun v => (v.VariantName, v.ModelName)))
      = [[("blue", "model-2")], [("blue", "model-1"), ("green", "model-2")]] := by
  rfl

/-- `""` is a left identity of string append (definitional; named for use
in `simp only` sets). -/
theorem string_empty_append (s : String) : "" ++ s = s := rfl

/-- Claim C8: both callback links equal their base URI extended with
`taskToken=` followed by the URI-encoded task token, joined by `&` when the
base already contains `?` and by `?` otherwise; and the SNS message embeds
exactly these links. -/
theorem request_approval_links_spec (a r t td du : String) :
    (request_approval_links a r t).1 =
      a ++ (if a.contains '?' then "&" else "?") ++ ("taskToken=" ++ uriQuote t) ∧
    (request_approval_links a r t).2 =
      r ++ (if r.contains '?' then "&" else "?") ++ ("taskToken=" ++ uriQuote t) ∧
    ∃ p m q,
      request_approval_sns_message (request_approval_links a r t).1
          (request_approval_links a r t).2 td du =
        p ++ ((request_approval_links a r t).1 ++
          (m ++ ((request_approval_links a r t).2 ++ q))) := by
  refine ⟨?_, ?_, ?_⟩
  · simp [request_approval_links, extend_uri_with_token, String.join, String.append_assoc]
  · simp [request_approval_links, extend_uri_with_token, String.join, String.append_assoc]
  · refine ⟨"Hello,\n\n" ++ "A new model has been tested and is ready for deployment.\n\n" ++
        "Please *approve* to trigger phased deployment, or *reject* the change within " ++
        td ++ ", or the model will be auto-rejected.\n\n\n" ++ "Approve -> ",
      "\n\n" ++ "Reject -> ",
      "\n\n\n\n" ++ "To view the current status of this workflow in the AWS Console, visit: " ++
        du ++ "\n\n", ?_⟩
    simp only [request_approval_sns_message, String.join, List.foldl,
      string_empty_append, ← String.append_assoc]

/-- Claim C3: `EndpointUpdating` is raised iff the endpoint status is in the
busy-state set (`event.BusyStates` if supplied, else the default five);
otherwise `UpdateFailed` is raised iff the status is in the fail-state set
(`event.FailStates` if supplied, else `Failed` alone) or `TargetStates` is
supplied and the status is not in it; in every remaining case the handler
returns the endpoint description. -/
theorem is_endpoint_updated_cases (event : EndpointStatusEvent)
    (desc : EndpointDescription) :
    ((∃ m, is_endpoint_updated_handler event desc =
        Except.error (EpUpdateError.endpointUpdating m)) ↔
      desc.EndpointStatus ∈ event.BusyStates.getD DEFAULT_BUSY_STATES) ∧
    ((∃ m, is_endpoint_updated_handler event desc =
        Except.error (EpUpdateError.updateFailed m)) ↔
      (desc.EndpointStatus ∉ event.BusyStates.getD DEFAULT_BUSY_STATES ∧
        (desc.EndpointStatus ∈ event.FailStates.getD DEFAULT_FAIL_STATES ∨
          ∃ ts, event.TargetStates = some ts ∧ desc.EndpointStatus ∉ ts))) ∧
    (is_endpoint_updated_handler event desc = Except.ok desc ↔
      (desc.EndpointStatus ∉ event.BusyStates.getD DEFAULT_BUSY_STATES ∧
        desc.EndpointStatus ∉ event.FailStates.getD DEFAULT_FAIL_STATES ∧
        ∀ ts, event.TargetStates = some ts → desc.EndpointStatus ∈ ts)) := by
  obtain ⟨name, ts?, fs?, bs?⟩ := event
  cases ts? <;>
    simp only [is_endpoint_updated_handler] <;>
    split_ifs <;>
    simp_all

/-- Claim C5: whenever processing of the event raises an exception, the
top-level handler re-raises that same exception and the last response sent
is a FAILED `cfnresponse` carrying the exception's message. -/
theorem cfn_handler_reports_failed_and_reraises
    (inner : String → List CfnResponse × Option PyExc) (request_type? : Option String)
    (e : PyExc) (h : processingRaises inner request_type? e) :
    (cfn_lambda_handler inner request_type?).raised = some e ∧
    (cfn_lambda_handler inner request_type?).sent.getLast? =
      some (cfnFailed (pyExcMessage e)) := by
  rcases h with ⟨hrt, he⟩ | ⟨rt, hrt, hdisp, hinner⟩
  · subst hrt; subst he
    exact ⟨rfl, rfl⟩
  · subst hrt
    rcases hx : inner rt with ⟨sends, exn?⟩
    rw [hx] at hinner
    simp only at hinner
    subst hinner
    simp [cfn_lambda_handler, if_pos hdisp, hx]

/-- Witness for C5 at a concrete failing Create event. -/
theorem cfn_handler_reports_failed_and_reraises_witness :
    processingRaises (fun _ => ([], some (PyExc.valueError "boom"))) (some "Create")
      (PyExc.valueError "boom") ∧
    ((cfn_lambda_handler (fun _ => ([], some (PyExc.valueError "boom")))
        (some "Create")).raised = some (PyExc.valueError "boom") ∧
      (cfn_lambda_handler (fun _ => ([], some (PyExc.valueError "boom")))
        (some "Create")).sent.getLast? =
        some (cfnFailed (pyExcMessage (PyExc.valueError "boom")))) :=
  ⟨Or.inr ⟨"Create", rfl, Or.inl rfl, rfl⟩,
   cfn_handler_reports_failed_and_reraises _ _ _ (Or.inr ⟨"Create", rfl, Or.inl rfl, rfl⟩)⟩

/-- Claim C6: on a Create event carrying truthy `GitRepository` and
`HomeEfsFileSystemUid`, an exception raised by the git clone is swallowed
and the handler still reports SUCCESS (provided the only remaining phase,
the optional enable-projects step, does not itself raise). -/
theorem create_user_setup_ignores_clone_errors
    (cfg : UserSetupConfig) (env : UserSetupEnv) (repo uid : String) (cloneExn : PyExc)
    (hgit : cfg.GitRepository = some repo) (hrepo : repo ≠ "")
    (hefs : cfg.HomeEfsFileSystemUid = some uid) (huid : uid ≠ "")
    (hclone : env.clone_git_repository uid repo = some cloneExn)
    (hproj : cfg.EnableProjects = true →
      env.enable_projects_step cfg.DomainId cfg.UserProfileName = none) :
    usersetup_handle_create cfg env =
      ([⟨"SUCCESS", [("UserProfileName", JVal.s cfg.UserProfileName)],
        some cfg.UserProfileName, none⟩], none) ∧
    ∀ cloneFn, usersetup_handle_create cfg
        { env with clone_git_repository := cloneFn } =
      usersetup_handle_create cfg env := by
  have hen : ∀ env2 : UserSetupEnv,
      env2.enable_projects_step = env.enable_projects_step →
      usersetupEnableProjects cfg env2 = Except.ok cfg.UserProfileName := by
    intro env2 h2
    unfold usersetupEnableProjects
    cases hE : cfg.EnableProjects with
    | false => simp
    | true => simp [h2, hproj hE]
  have hmain : ∀ cloneFn, usersetup_handle_create cfg
      { env with clone_git_repository := cloneFn } =
      ([⟨"SUCCESS", [("UserProfileName", JVal.s cfg.UserProfileName)],
        some cfg.UserProfileName, none⟩], none) := by
    intro cloneFn
    unfold usersetup_handle_create create_user_setup
    rw [hgit, hefs]
    simp only [Option.getD_some]
    rw [if_pos hrepo, if_neg huid]
    cases cloneFn uid repo <;>
      rw [hen { env with clone_git_repository := cloneFn } rfl]
  have hmain0 : usersetup_handle_create cfg env =
      ([⟨"SUCCESS", [("UserProfileName", JVal.s cfg.UserProfileName)],
        some cfg.UserProfileName, none⟩], none) :=
    hmain env.clone_git_repository
  exact ⟨hmain0, fun cloneFn => by rw [hmain cloneFn, hmain0]⟩

/-- Witness for C6: a clone failure on a fully specified Create event. -/
theorem create_user_setup_ignores_clone_errors_witness :
    usersetup_handle_create
      ⟨"d-123", "alice", some "https://example.com/repo.git", some "200001", false⟩
      ⟨fun _ _ => some (PyExc.runtimeError "git clone failed"), fun _ _ => none⟩ =
      ([⟨"SUCCESS", [("UserProfileName", JVal.s "alice")], some "alice", none⟩], none) :=
  (create_user_setup_ignores_clone_errors _ _ "https://example.com/repo.git" "200001"
    (PyExc.runtimeError "git clone failed") rfl (by decide) rfl (by decide) rfl
    (fun hc => by simp at hc)).1

/-- Claim C10: a Delete event finding no Studio domain in the region (no
explicit `DomainId` and an empty `ListDomains`), or finding the user profile
already absent (`DescribeUserProfile` raises `ResourceNotFound`), reports
SUCCESS with the event's original `PhysicalResourceId` and never calls
`delete_user_profile`. -/
theorem user_delete_idempotent (event : UserDeleteEvent) (env : UserDeleteEnv)
    (h : (event.DomainIdProp = none ∧ env.list_domains = Except.ok []) ∨
      (∃ did, resolvedDomainId event env = some did ∧
        env.describe_user_profile did event.PhysicalResourceId =
          DescribeUPResult.resourceNotFound)) :
    user_handle_delete event env =
      ⟨[cfnSuccessEmpty event.PhysicalResourceId], false, none⟩ := by
  rcases h with ⟨hd, hl⟩ | ⟨did, hdid, hnf⟩
  · simp [user_handle_delete, hd, hl]
  · unfold resolvedDomainId at hdid
    unfold user_handle_delete
    cases hd : event.DomainIdProp with
    | some d =>
      rw [hd] at hdid
      simp only [Option.some.injEq] at hdid
      subst hdid
      simp [userDeleteWithDomain, hnf]
    | none =>
      rw [hd] at hdid
      cases hl : env.list_domains with
      | error e => rw [hl] at hdid; simp at hdid
      | ok ids =>
        cases ids with
        | nil => rw [hl] at hdid
        | cons d rest =>
          rw [hl] at hdid
          simp only [Option.some.injEq] at hdid
          subst hdid
          simp [hl, userDeleteWithDomain, hnf]

/-- Witness for C10: both hypothesis branches at concrete inputs (the
no-domain branch is used to discharge the theorem). -/
theorem user_delete_idempotent_witness :
    user_handle_delete ⟨"alice", none⟩
      ⟨Except.ok [], fun _ _ => DescribeUPResult.resourceNotFound, fun _ _ => none⟩ =
      ⟨[cfnSuccessEmpty "alice"], false, none⟩ :=
  user_delete_idempotent ⟨"alice", none⟩
    ⟨Except.ok [], fun _ _ => DescribeUPResult.resourceNotFound, fun _ _ => none⟩
    (Or.inl ⟨rfl, rfl⟩)

/-- Claim C1: when the endpoint already exists `InService` with a single
production variant, the canary endpoint configuration is created with
exactly two production variants: the existing one at
`InitialVariantWeight = 0.9` and the new one at `1 - 0.9`, summing to
exactly 1. -/
theorem prepare_canary_weights_split
    (event : PrepareEvent) (env : PrepareEnv) (d : SMEndpointDesc)
    (s : VariantSummary) (v : ProductionVariant)
    (hdesc : env.describe_endpoint = Except.ok d)
    (hst : d.EndpointStatus = "InService")
    (hvars : d.ProductionVariants = [s])
    (hfind : (env.describe_endpoint_config d.EndpointConfigName).ProductionVariants.find?
        (fun conf => conf.VariantName = s.VariantName) = some v) :
    ∃ tgt canary, (prepare_deployment_configs event env).created = [tgt, canary] ∧
      ∃ e n, canary.ProductionVariants = [e, n] ∧
        e.VariantName = s.VariantName ∧
        e.InitialVariantWeight = (9 : ℚ) / 10 ∧
        n.InitialVariantWeight = 1 - (9 : ℚ) / 10 ∧
        e.InitialVariantWeight + n.InitialVariantWeight = 1 := by
  have hvn : v.VariantName = s.VariantName := by
    have := List.find?_some hfind
    simpa using this
  simp [prepare_deployment_configs, prepareCreateConfigs, hdesc, hst, hvars, hfind]
  refine ⟨_, _, ⟨rfl, rfl⟩, _, _, rfl, hvn, rfl, rfl, by norm_num⟩

/-- Witness for C1: a concrete `InService` endpoint with one `blue` variant
running `model-1`. -/
theorem prepare_canary_weights_split_witness :
    ∃ tgt canary, (prepare_deployment_configs cPrepEvent c9Env).created = [tgt, canary] ∧
      ∃ e n, canary.ProductionVariants = [e, n] ∧
        e.VariantName = "blue" ∧
        e.InitialVariantWeight = (9 : ℚ) / 10 ∧
        n.InitialVariantWeight = 1 - (9 : ℚ) / 10 ∧
        e.InitialVariantWeight + n.InitialVariantWeight = 1 :=
  prepare_canary_weights_split cPrepEvent c9Env
    ⟨"InService", "my-endpoint-cfg", [⟨"blue", 2, []⟩]⟩ ⟨"blue", 2, []⟩
    ⟨"blue", "model-1", "ml.g4dn.xlarge", 2, 1, []⟩ rfl rfl rfl rfl

/-- The loop guard `i * poll_secs < max_wait` holds exactly for the first
`numPolls poll_secs max_wait` iteration indices. -/
theorem mul_lt_iff_lt_numPolls (p w i : ℕ) (hp : 0 < p) :
    i * p < w ↔ i < numPolls p w := by
  unfold numPolls
  constructor
  · intro h
    have h2 : (i + 1) * p ≤ w + p - 1 := by rw [Nat.succ_mul]; omega
    have := (Nat.le_div_iff_mul_le hp).mpr h2
    omega
  · intro h
    have h2 : (i + 1) * p ≤ w + p - 1 := (Nat.le_div_iff_mul_le hp).mp (by omega)
    rw [Nat.succ_mul] at h2
    omega

/-- Behaviour of the polling loop once the time guard fails: it raises the
timeout `RuntimeError` with the elapsed time and the current
`last_status`. -/
theorem describe_stable_user_go_stop (polls : ℕ → UserProfileDesc)
    (p w : ℕ) (hp : 0 < p) (i : ℕ) (last : String) (hge : ¬ i * p < w) :
    (∀ dd, describe_stable_user_go polls p w hp i last = Except.ok dd →
      ∃ j, i ≤ j ∧ j < numPolls p w ∧ dd = polls j ∧
        dd.Status ∉ updating_statuses ∧
        ∀ k, i ≤ k → k < j → (polls k).Status ∈ updating_statuses) ∧
    (∀ msg, describe_stable_user_go polls p w hp i last = Except.error msg →
      (∀ j, i ≤ j → j < numPolls p w → (polls j).Status ∈ updating_statuses) ∧
      msg = stable_timeout_msg (max i (numPolls p w) * p)
        (if i < numPolls p w then (polls (numPolls p w - 1)).Status else last)) := by
  have hiN : ¬ i < numPolls p w := by
    rw [← mul_lt_iff_lt_numPolls p w i hp]; exact hge
  rw [describe_stable_user_go, dif_neg hge]
  constructor
  · intro dd hdd
    simp at hdd
  · intro msg hmsg
    injection hmsg with hmsg
    refine ⟨fun j hij hjN => absurd (Nat.lt_of_le_of_lt hij hjN) hiN, ?_⟩
    rw [← hmsg, Nat.max_eq_left (by omega), if_neg hiN]

/-- Full characterisation of the polling loop from iteration `i`, by
induction on the remaining iteration budget. -/
theorem describe_stable_user_go_spec (polls : ℕ → UserProfileDesc)
    (p w : ℕ) (hp : 0 < p) :
    ∀ n i last, numPolls p w - i ≤ n →
    (∀ dd, describe_stable_user_go polls p w hp i last = Except.ok dd →
      ∃ j, i ≤ j ∧ j < numPolls p w ∧ dd = polls j ∧
        dd.Status ∉ updating_statuses ∧
        ∀ k, i ≤ k → k < j → (polls k).Status ∈ updating_statuses) ∧
    (∀ msg, describe_stable_user_go polls p w hp i last = Except.error msg →
      (∀ j, i ≤ j → j < numPolls p w → (polls j).Status ∈ updating_statuses) ∧
      msg = stable_timeout_msg (max i (numPolls p w) * p)
        (if i < numPolls p w then (polls (numPolls p w - 1)).Status else last)) := by
  intro n
  induction n with
  | zero =>
    intro i last hn
    refine describe_stable_user_go_stop polls p w hp i last ?_
    rw [mul_lt_iff_lt_numPolls p w i hp]
    omega
  | succ n ih =>
    intro i last hn
    by_cases hlt : i * p < w
    · have hiN : i < numPolls p w := (mul_lt_iff_lt_numPolls p w i hp).mp hlt
      rw [describe_stable_user_go, dif_pos hlt]
      by_cases hstat : (polls i).Status ∈ updating_statuses
      · rw [if_pos hstat]
        obtain ⟨hok, herr⟩ := ih (i + 1) (polls i).Status (by omega)
        constructor
        · intro dd hdd
          obtain ⟨j, hij, hjN, hdd', hstable, hmin⟩ := hok dd hdd
          refine ⟨j, by omega, hjN, hdd', hstable, fun k hik hkj => ?_⟩
          rcases Nat.eq_or_lt_of_le hik with hik' | hik'
          · rw [← hik']; exact hstat
          · exact hmin k hik' hkj
        · intro msg hmsg
          obtain ⟨hall, hmsg'⟩ := herr msg hmsg
          constructor
          · intro j hij hjN
            rcases Nat.eq_or_lt_of_le hij with hij' | hij'
            · rw [← hij']; exact hstat
            · exact hall j hij' hjN
          · rw [hmsg', Nat.max_eq_right (by omega), Nat.max_eq_right (by omega)]
            rcases Nat.eq_or_lt_of_le hiN with hi1 | hi1
            · rw [if_neg (by omega), if_pos hiN]
              have : numPolls p w - 1 = i := by omega
              rw [this]
            · rw [if_pos hi1, if_pos hiN]
      · rw [if_neg hstat]
        constructor
        · intro dd hdd
          injection hdd with hdd
          exact ⟨i, Nat.le_refl i, hiN, hdd.symm, by
            rw [← hdd]; exact hstat,
            fun k hik hki => absurd (Nat.lt_of_le_of_lt hik hki) (Nat.lt_irrefl i)⟩
        · intro msg hmsg
          simp at hmsg
    · exact describe_stable_user_go_stop polls p w hp i last hlt

/-- The loop reads at most the first `numPolls` descriptions: two oracles
that agree there give identical outcomes (the loop is bounded, and in
particular never runs unboundedly). -/
theorem describe_stable_user_go_agree (polls polls' : ℕ → UserProfileDesc)
    (p w : ℕ) (hp : 0 < p) :
    ∀ n i last, numPolls p w - i ≤ n →
    (∀ j, i ≤ j → j < numPolls p w → polls' j = polls j) →
    describe_stable_user_go polls' p w hp i last =
      describe_stable_user_go polls p w hp i last := by
  intro n
  induction n with
  | zero =>
    intro i last hn hagree
    have hge : ¬ i * p < w := by
      rw [mul_lt_iff_lt_numPolls p w i hp]; omega
    rw [describe_stable_user_go, dif_neg hge,
      describe_stable_user_go, dif_neg hge]
  | succ n ih =>
    intro i last hn hagree
    by_cases hlt : i * p < w
    · have hiN : i < numPolls p w := (mul_lt_iff_lt_numPolls p w i hp).mp hlt
      rw [describe_stable_user_go, dif_pos hlt,
        describe_stable_user_go, dif_pos hlt]
      rw [hagree i (Nat.le_refl i) hiN]
      by_cases hstat : (polls i).Status ∈ updating_statuses
      · rw [if_pos hstat, if_pos hstat]
        exact ih (i + 1) (polls i).Status (by omega)
          (fun j hij hjN => hagree j (by omega) hjN)
      · rw [if_neg hstat, if_neg hstat]
    · rw [describe_stable_user_go, dif_neg hlt,
        describe_stable_user_go, dif_neg hlt]

/-- Claim C7: `describe_stable_user` returns the first polled description
whose status lies outside the transitional set; when every description
polled within the window is transitional it raises the timeout
`RuntimeError` reporting the last observed status; and the loop is bounded:
it depends only on the first `numPolls` polled descriptions (so it never
runs unboundedly). -/
theorem describe_stable_user_spec (polls : ℕ → UserProfileDesc)
    (poll_secs max_wait : ℕ) (hp : 0 < poll_secs) :
    (∀ dd, describe_stable_user polls poll_secs max_wait hp = Except.ok dd →
      ∃ j, j * poll_secs < max_wait ∧ dd = polls j ∧
        dd.Status ∉ updating_statuses ∧
        ∀ k, k < j → (polls k).Status ∈ updating_statuses) ∧
    (∀ msg, describe_stable_user polls poll_secs max_wait hp = Except.error msg →
      (∀ j, j * poll_secs < max_wait → (polls j).Status ∈ updating_statuses) ∧
      msg = stable_timeout_msg (numPolls poll_secs max_wait * poll_secs)
        (last_observed_status polls (numPolls poll_secs max_wait))) ∧
    (∀ polls' : ℕ → UserProfileDesc,
      (∀ j, j < numPolls poll_secs max_wait → polls' j = polls j) →
      describe_stable_user polls' poll_secs max_wait hp =
        describe_stable_user polls poll_secs max_wait hp) := by
  obtain ⟨hok, herr⟩ :=
    describe_stable_user_go_spec polls poll_secs max_wait hp
      (numPolls poll_secs max_wait) 0 "Pending" (by omega)
  refine ⟨?_, ?_, ?_⟩
  · intro dd hdd
    obtain ⟨j, _, hjN, hdd', hstable, hmin⟩ := hok dd hdd
    exact ⟨j, (mul_lt_iff_lt_numPolls poll_secs max_wait j hp).mpr hjN, hdd',
      hstable, fun k hkj => hmin k (Nat.zero_le k) hkj⟩
  · intro msg hmsg
    obtain ⟨hall, hmsg'⟩ := herr msg hmsg
    refine ⟨fun j hj => hall j (Nat.zero_le j)
      ((mul_lt_iff_lt_numPolls poll_secs max_wait j hp).mp hj), ?_⟩
    rw [hmsg', Nat.max_eq_right (Nat.zero_le _)]
    cases hN : numPolls poll_secs max_wait with
    | zero => rw [if_neg (by omega : ¬ (0 : ℕ) < 0)]; rfl
    | succ m => rw [if_pos (by omega : (0 : ℕ) < m + 1)]; rfl
  · intro polls' hagree
    exact describe_stable_user_go_agree polls polls' poll_secs max_wait hp
      (numPolls poll_secs max_wait) 0 "Pending" (by omega)
      (fun j _ hjN => hagree j hjN)

/-- Witness for C7 at the source defaults `poll_secs = 30`,
`max_wait_secs = 1200`, with an immediately `InService` profile. -/
theorem describe_stable_user_spec_witness :
    (0 : ℕ) < 30 ∧
    (∀ dd, describe_stable_user (fun _ => ⟨"InService", []⟩) 30 1200 (by norm_num) =
        Except.ok dd →
      ∃ j, j * 30 < 1200 ∧ dd = (fun _ => (⟨"InService", []⟩ : UserProfileDesc)) j ∧
        dd.Status ∉ updating_statuses ∧
        ∀ k, k < j →
          ((fun _ => (⟨"InService", []⟩ : UserProfileDesc)) k).Status ∈ updating_statuses) := by
  refine ⟨by norm_num, ?_⟩
  exact (describe_stable_user_spec (fun _ => ⟨"InService", []⟩) 30 1200 (by norm_num)).1

end FrugalMLOps
